import Mathlib

/-
Verification of the interactive-sign coordination and codec logic.

The definitions below are shallow embeddings of:
  - src/src/trackRegistry.js        (TrackRegistry Durable Object: rate
    limiting, track registry, pull stats, health monitor)
  - src/src/handlers/ledHandler.js  (color downlink payload construction and
    the worker router: auth checks, uplink webhook handling)
  - src/pi-publisher/index.js       (heartbeat / restart state machine)
JS numbers that hold timestamps and millisecond durations are modelled as
Int, counters as Nat, and JS `null`/`undefined` as `Option`.  JS string
truthiness (empty string is falsy) is modelled explicitly where the source
relies on it.
-/

/-- Track record stored under the `currentTrack` storage key
(src/src/trackRegistry.js, POST /register). -/
structure TrackRecord where
  sessionId : String
  trackName : String
  timestamp : Int
  deriving DecidableEq, Repr

/-- Rate window stored under `ratelimit:<key>`
(src/src/trackRegistry.js lines 25-38): `{ start, count }`. -/
structure RateWindow where
  start : Int
  count : Nat
  deriving DecidableEq, Repr

/-- Outcome of one rate-limit check: HTTP 200 maps to `allowed = true`,
HTTP 429 to `allowed = false` with the retry-after body. -/
structure RateResult where
  allowed : Bool
  retryAfterSeconds : Option Int
  deriving DecidableEq, Repr

/-- JS `Math.ceil (a / b)` for integer `a` and positive integer `b`,
as used in `Math.ceil((windowData.start + windowMs - now) / 1000)`. -/
def ceilDiv (a b : Int) : Int := -((-a) / b)

/-- One call of the rate-limit endpoint (src/src/trackRegistry.js lines
16-39) acting on the stored window for its key: reset the window when absent
or expired, increment the count, reject without persisting when the count
exceeds the maximum, otherwise persist.  Returns the response and the stored
window after the call. -/
def checkAndIncrementRate (stored : Option RateWindow) (now windowMs : Int)
    (maxRequests : Nat) : RateResult × Option RateWindow :=
  let w : RateWindow :=
    match stored with
    | some w => if now - w.start > windowMs then ⟨now, 0⟩ else w
    | none => ⟨now, 0⟩
  let w : RateWindow := ⟨w.start, w.count + 1⟩
  if maxRequests < w.count then
    (⟨false, some (ceilDiv (w.start + windowMs - now) 1000)⟩, stored)
  else
    (⟨true, none⟩, some w)

/-- Run a sequence of rate-limit calls at the given times against a single
key's stored window, collecting the responses. -/
def runRate (stored : Option RateWindow) (times : List Int) (windowMs : Int)
    (maxRequests : Nat) : List RateResult × Option RateWindow :=
  match times with
  | [] => ([], stored)
  | t :: ts =>
    let r := checkAndIncrementRate stored t windowMs maxRequests
    let rest := runRate r.2 ts windowMs maxRequests
    (r.1 :: rest.1, rest.2)

/-- Pull statistics stored under the `pullStats` storage key
(src/src/trackRegistry.js, POST /pull-success).  The only writer stores all
three fields; `sessionId` is `null` when no track was registered. -/
structure PullStats where
  lastSuccess : Int
  recentFailures : Int
  sessionId : Option String
  deriving DecidableEq, Repr

/-- Health verdict returned by GET /health: the `healthy` flag and the
`reason` string when one is attached. -/
structure Verdict where
  healthy : Bool
  reason : Option String
  deriving DecidableEq, Repr

/-- JS truthiness of a nullable string: `null` and the empty string are
falsy. -/
def truthyStr : Option String → Bool
  | none => false
  | some s => s != ""

/-- Health monitor (src/src/trackRegistry.js lines 154-205), translated
branch by branch: the `hasRecentFailures` / `noRecentSuccess` /
`sessionMismatch` / `hadPreviousSuccess` booleans and the if-chain that
follows them.  `pullStats` is `none` when the storage key is absent (the
source then reads fields of `{}`, all `undefined`). -/
def health (track : Option TrackRecord) (pullStats : Option PullStats)
    (now : Int) : Verdict :=
  match track with
  | none => ⟨false, some "no-track"⟩
  | some t =>
    if now - t.timestamp > 60000 then ⟨false, some "stale-heartbeat"⟩
    else
      let hasRecentFailures : Bool :=
        match pullStats with
        | some ps => decide (3 ≤ ps.recentFailures)
        | none => false
      let noRecentSuccess : Bool :=
        match pullStats with
        | some ps => (ps.lastSuccess == 0) || decide (now - ps.lastSuccess > 300000)
        | none => true
      let sessionMismatch : Bool :=
        match pullStats with
        | some ps => truthyStr ps.sessionId && (ps.sessionId != some t.sessionId)
        | none => false
      if sessionMismatch then ⟨true, some "new-session"⟩
      else if hasRecentFailures && noRecentSuccess then ⟨false, some "pull-failures"⟩
      else
        let hadPreviousSuccess : Bool :=
          match pullStats with
          | some ps => (ps.lastSuccess != 0) && decide (0 < ps.lastSuccess)
          | none => false
        let successTooOld : Bool :=
          hadPreviousSuccess &&
            (match pullStats with
             | some ps => decide (now - ps.lastSuccess > 3600000)
             | none => false)
        if successTooOld then ⟨false, some "no-recent-viewers"⟩
        else ⟨true, none⟩

/-- Session id carried by the pull stats, `none` when the stats are absent. -/
def psSessionId : Option PullStats → Option String
  | some ps => ps.sessionId
  | none => none

/-- Last-success instant carried by the pull stats, `none` when absent. -/
def psLastSuccess : Option PullStats → Option Int
  | some ps => some ps.lastSuccess
  | none => none

/-- Recent-failure count carried by the pull stats, `none` when absent. -/
def psRecentFailures : Option PullStats → Option Int
  | some ps => some ps.recentFailures
  | none => none

/-- Health monitor as the spec's six ordered rules (first match wins),
with field presence read as JS truthiness: `sessionId` present means
non-null and non-empty, `lastSuccess` counts as absent when zero for rule 4
and as present only when positive for rule 5. -/
def healthSpec (track : Option TrackRecord) (pullStats : Option PullStats)
    (now : Int) : Verdict :=
  match track with
  | none => ⟨false, some "no-track"⟩
  | some t =>
    if now - t.timestamp > 60000 then ⟨false, some "stale-heartbeat"⟩
    else if (psSessionId pullStats).elim false
        (fun s => (s != "") && (s != t.sessionId)) then
      ⟨true, some "new-session"⟩
    else if ((psRecentFailures pullStats).elim false (fun n => decide (3 ≤ n)))
        && ((psLastSuccess pullStats).elim true
              (fun l => (l == 0) || decide (now - l > 300000))) then
      ⟨false, some "pull-failures"⟩
    else if (psLastSuccess pullStats).elim false
        (fun l => decide (0 < l) && decide (now - l > 3600000)) then
      ⟨false, some "no-recent-viewers"⟩
    else ⟨true, none⟩

/-- Result of GET /current (src/src/trackRegistry.js lines 63-76). -/
inductive GetTrackResult where
  | found (track : TrackRecord)
  | notFoundNoTrack
  | notFoundStale
  deriving DecidableEq, Repr

/-- GET /current: 404 when no record, 404 "Track stale" when the record is
older than 60 seconds, else the record. -/
def getCurrentTrack (stored : Option TrackRecord) (now : Int) : GetTrackResult :=
  match stored with
  | none => .notFoundNoTrack
  | some track =>
    if now - track.timestamp > 60000 then .notFoundStale else .found track

/-- POST /register (src/src/trackRegistry.js lines 43-60): fails when either
field is JS-falsy (empty), otherwise builds the record stamped with the
current time. -/
def registerTrack (sessionId trackName : String) (now : Int) :
    Except String TrackRecord :=
  if (sessionId == "") || (trackName == "") then
    .error "Missing sessionId or trackName"
  else .ok ⟨sessionId, trackName, now⟩

/-- Clamp of a color component to [0, 255], the spec's `clamp`. -/
def clamp (x : Int) : Int := max 0 (min 255 x)

/-- Color downlink payload built by sendDownlink
(src/src/handlers/ledHandler.js lines 16-28): clamp each component and lay
the bytes out as [R, B, G, onDuration = 255, offDuration = 0]. -/
def colorDownlinkPayload (red green blue : Int) : List Int :=
  let r := max 0 (min 255 red)
  let g := max 0 (min 255 green)
  let b := max 0 (min 255 blue)
  [r, b, g, 255, 0]

/-- Auth gate for write operations on /track/* (router in
src/src/handlers/ledHandler.js lines 205-214): reject only when the
configured secret is truthy and the provided header differs.  Returns true
when the request proceeds. -/
def trackWriteAllowed (expectedSecret providedSecret : Option String) : Bool :=
  if truthyStr expectedSecret && (providedSecret != expectedSecret) then false
  else true

/-- Auth gate for POST /led/command (router in
src/src/handlers/ledHandler.js lines 293-300), same shape as the track
gate: reject only when the configured secret is truthy and the provided
header differs. -/
def ledCommandAllowed (expectedSecret providedSecret : Option String) : Bool :=
  if truthyStr expectedSecret && (providedSecret != expectedSecret) then false
  else true

/-- Publisher heartbeat state (src/pi-publisher/index.js): the
consecutive-failure counter and the restart guard flag. -/
structure PubState where
  consecutiveHeartbeatFailures : Nat
  isRestarting : Bool
  deriving DecidableEq, Repr

/-- Outcome of one fetch in a heartbeat cycle: a response with its `ok`
status, or a thrown error (network failure or the 10s AbortError timeout). -/
inductive FetchOutcome where
  | ok (statusOk : Bool)
  | thrown
  deriving DecidableEq, Repr

/-- Inputs consumed by one heartbeat cycle: whether the WebRTC
connection/ICE state is failed-or-closed, the outcome of the registration
request, the outcome of the health request, and the verdict's `healthy`
flag when the health response was ok. -/
structure HBInput where
  connBad : Bool
  reg : FetchOutcome
  healthReq : FetchOutcome
  healthHealthy : Bool
  deriving DecidableEq, Repr

/-- triggerRestart (src/pi-publisher/index.js lines 288-294) followed by the
synchronous prefix of restart(): when the guard is clear it sets
`isRestarting` and resets the failure counter, otherwise it drops the
request.  The Bool records whether a restart execution was started. -/
def triggerRestart (s : PubState) : PubState × Bool :=
  if s.isRestarting then (s, false) else (⟨0, true⟩, true)

/-- Catch block of sendHeartbeat (src/pi-publisher/index.js lines 267-282):
increment the consecutive-failure counter and trigger a restart when it
reaches MAX_HEARTBEAT_FAILURES = 3. -/
def hbCatch (s : PubState) : PubState × Bool :=
  let f := s.consecutiveHeartbeatFailures + 1
  if 3 ≤ f then triggerRestart ⟨f, s.isRestarting⟩
  else (⟨f, s.isRestarting⟩, false)

/-- One heartbeat cycle, sendHeartbeat (src/pi-publisher/index.js lines
207-283): skipped while restarting; a bad WebRTC state restarts
immediately; a thrown registration fetch or non-ok registration response
lands in the catch block, as does a thrown health fetch; a non-ok health
response skips the verdict check; an ok-but-unhealthy verdict restarts
immediately; otherwise the cycle succeeds and resets the counter. -/
def sendHeartbeat (s : PubState) (inp : HBInput) : PubState × Bool :=
  if s.isRestarting then (s, false)
  else if inp.connBad then triggerRestart s
  else
    match inp.reg with
    | .thrown => hbCatch s
    | .ok false => hbCatch s
    | .ok true =>
      match inp.healthReq with
      | .thrown => hbCatch s
      | .ok false => (⟨0, s.isRestarting⟩, false)
      | .ok true =>
        if inp.healthHealthy then (⟨0, s.isRestarting⟩, false)
        else triggerRestart s

/-- Failure cases of a heartbeat cycle that land in the catch block: a
thrown or non-ok registration request, or a thrown health request. -/
def hbFailCase (inp : HBInput) : Prop :=
  inp.reg = .thrown ∨ inp.reg = .ok false ∨
    (inp.reg = .ok true ∧ inp.healthReq = .thrown)

/-- Suspension point a restart execution is parked at: the 5s delay before
start(), or the 30s backoff in the catch block of restart()
(src/pi-publisher/index.js lines 527-554). -/
inductive TaskPC where
  | sleeping5
  | backoff30
  | done
  deriving DecidableEq, Repr

/-- State of the restart subsystem: the shared `isRestarting` flag and the
suspension points of all restart executions spawned so far (completed ones
are marked done). -/
structure RestartSys where
  isRestarting : Bool
  tasks : List TaskPC
  deriving DecidableEq, Repr

/-- Scheduler events for the restart subsystem.  `trigger` is a call of
triggerRestart (heartbeat step, ICE/connection failure handler or timer);
`startOk i` resumes execution `i` whose start() then succeeds; `startFail i`
resumes execution `i` whose start() throws, entering the 30s backoff;
`backoffDone i` finishes execution `i`'s backoff, which clears the flag,
recursively calls restart() and then runs the outer finally block. -/
inductive RestartEvent where
  | trigger
  | startOk (i : Nat)
  | startFail (i : Nat)
  | backoffDone (i : Nat)
  deriving DecidableEq, Repr

/-- Synchronous prefix of restart() (src/pi-publisher/index.js lines
527-540): return at once when the guard is set, otherwise set the guard and
park the new execution at the 5s delay. -/
def restartEntry (s : RestartSys) : RestartSys :=
  if s.isRestarting then s else ⟨true, s.tasks ++ [.sleeping5]⟩

/-- Small-step semantics of the restart subsystem.  Every atomic segment of
restart() between two awaits is one step; `backoffDone` performs the catch
tail of lines 543-550 (clear the flag, recursive restart()) followed by the
finally block of line 552 (clear the flag again). -/
def restartStep (s : RestartSys) : RestartEvent → RestartSys
  | .trigger => restartEntry s
  | .startOk i =>
    if s.tasks.getD i .done = .sleeping5 then ⟨false, s.tasks.set i .done⟩
    else s
  | .startFail i =>
    if s.tasks.getD i .done = .sleeping5 then
      ⟨s.isRestarting, s.tasks.set i .backoff30⟩
    else s
  | .backoffDone i =>
    if s.tasks.getD i .done = .backoff30 then
      let s1 : RestartSys := ⟨false, s.tasks.set i .done⟩
      let s2 := restartEntry s1
      ⟨false, s2.tasks⟩
    else s

/-- Run a sequence of restart-subsystem events from a state. -/
def runRestart (s : RestartSys) (events : List RestartEvent) : RestartSys :=
  events.foldl restartStep s

/-- Number of restart executions currently in flight. -/
def activeRestarts (s : RestartSys) : Nat :=
  (s.tasks.filter (fun t => t != .done)).length

/-- Decoded color part of the telemetry frame. -/
structure ColorState where
  r : Nat
  g : Nat
  b : Nat
  hex : String
  deriving DecidableEq, Repr

/-- Decoded timing part of the telemetry frame. -/
structure TimingState where
  onDuration : Nat
  offDuration : Nat
  deriving DecidableEq, Repr

/-- Decoded firmware revision part of the telemetry frame. -/
structure FirmwareState where
  sw : Nat
  hw : Nat
  deriving DecidableEq, Repr

/-- Device telemetry stored under the `busylightState` storage key. -/
structure BusylightState where
  rssi : Int
  snr : Int
  downlinksReceived : Nat
  uplinksSent : Nat
  color : ColorState
  timing : TimingState
  firmware : FirmwareState
  adrEnabled : Bool
  timestamp : Int
  deriving DecidableEq, Repr

/-- Little-endian unsigned 32-bit read at a byte offset. -/
def u32le (bytes : List Nat) (off : Nat) : Nat :=
  bytes.getD off 0 + 256 * bytes.getD (off + 1) 0 +
    65536 * bytes.getD (off + 2) 0 + 16777216 * bytes.getD (off + 3) 0

/-- Two's-complement reading of an unsigned 32-bit value. -/
def toSigned32 (n : Nat) : Int :=
  if n < 2147483648 then (n : Int) else (n : Int) - 4294967296

/-- Lowercase hex digit of a value below 16. -/
def hexDigit (n : Nat) : Char :=
  if n < 10 then Char.ofNat (48 + n) else Char.ofNat (87 + n)

/-- Two lowercase hex digits of a byte. -/
def byteHex (n : Nat) : String :=
  String.mk [hexDigit (n / 16), hexDigit (n % 16)]

/-- Six-digit lowercase hex of an (r, g, b) triple. -/
def rgbHex (r g b : Nat) : String :=
  byteHex r ++ byteHex g ++ byteHex b

/-- Modelled from the spec: the body of parseUplinkPayload /
decodeTelemetry is not under src/ (only its caller in the router and its
contract in the src CLAUDE.md are); spec section 4.2 defines it.  Fails
exactly when the frame is not 24 bytes; otherwise reads the little-endian
signed RSSI and SNR, the unsigned counters, the R, B, G color bytes at
offsets 16-18, the timing and firmware bytes, and the ADR flag (1 means
true); `timestamp` is the decode-time clock passed in as `now`. -/
def decodeTelemetry (bytes : List Nat) (now : Int) :
    Except String BusylightState :=
  if bytes.length ≠ 24 then .error "InvalidPayload"
  else
    let r := bytes.getD 16 0
    let b := bytes.getD 17 0
    let g := bytes.getD 18 0
    .ok
      { rssi := toSigned32 (u32le bytes 0)
        snr := toSigned32 (u32le bytes 4)
        downlinksReceived := u32le bytes 8
        uplinksSent := u32le bytes 12
        color := ⟨r, g, b, rgbHex r g b⟩
        timing := ⟨bytes.getD 19 0, bytes.getD 20 0⟩
        firmware := ⟨bytes.getD 21 0, bytes.getD 22 0⟩
        adrEnabled := bytes.getD 23 0 == 1
        timestamp := now }

/-- Structured response of the uplink webhook: `received` is always true,
`deviceState` is null unless a frame was decoded. -/
structure UplinkResponse where
  received : Bool
  deviceState : Option BusylightState
  deriving DecidableEq, Repr

/-- Uplink webhook body (router in src/src/handlers/ledHandler.js lines
330-353): when the event carries data, decode it; on a decode error only
log, leave the stored state alone and answer with deviceState null; on
success store the state and echo it.  Returns the response and the stored
state after the call. -/
def handleUplink (stored : Option BusylightState) (data : Option (List Nat))
    (now : Int) : UplinkResponse × Option BusylightState :=
  match data with
  | none => (⟨true, none⟩, stored)
  | some bytes =>
    match decodeTelemetry bytes now with
    | .error _ => (⟨true, none⟩, stored)
    | .ok st => (⟨true, some st⟩, some st)

/-- Storage key used by the rate-limit endpoint for a request key. -/
def rlKey (key : String) : String := "ratelimit:" ++ key

/-- Full persisted state of one TrackRegistry Durable Object instance. -/
structure RegistryState where
  currentTrack : Option TrackRecord
  pullStats : Option PullStats
  busylightState : Option BusylightState
  downlinkCounter : Nat
  needsConfig : Option Nat
  rateWindows : String → Option RateWindow

/-- State-changing operations of the TrackRegistry Durable Object
(src/src/trackRegistry.js); reads are pure and omitted. -/
inductive RegistryOp where
  | ratelimit (key : String) (windowMs : Int) (maxRequests : Nat) (now : Int)
  | register (sessionId trackName : String) (now : Int)
  | heartbeat (now : Int)
  | unregister
  | putBusylightState (st : BusylightState)
  | incrementDownlinkCounter
  | setNeedsConfig (data : Nat)
  | pullSuccess (now : Int)

/-- Transition function of the Durable Object: each endpoint's effect on the
persisted state, translated endpoint by endpoint from
src/src/trackRegistry.js.  POST /pull-success stores
`{ lastSuccess: now, recentFailures: 0, sessionId: track?.sessionId || null }`. -/
def applyOp (s : RegistryState) : RegistryOp → RegistryState
  | .ratelimit key windowMs maxRequests now =>
    let r := checkAndIncrementRate (s.rateWindows (rlKey key)) now windowMs maxRequests
    { s with rateWindows := fun k => if k = rlKey key then r.2 else s.rateWindows k }
  | .register sessionId trackName now =>
    if (sessionId == "") || (trackName == "") then s
    else { s with currentTrack := some ⟨sessionId, trackName, now⟩ }
  | .heartbeat now =>
    match s.currentTrack with
    | some t => { s with currentTrack := some ⟨t.sessionId, t.trackName, now⟩ }
    | none => s
  | .unregister => { s with currentTrack := none }
  | .putBusylightState st => { s with busylightState := some st }
  | .incrementDownlinkCounter => { s with downlinkCounter := s.downlinkCounter + 1 }
  | .setNeedsConfig data => { s with needsConfig := some data }
  | .pullSuccess now =>
    { s with pullStats := some ⟨now, 0,
        match s.currentTrack with
        | some t => if t.sessionId == "" then none else some t.sessionId
        | none => none⟩ }

/-- Fresh Durable Object instance: empty storage. -/
def initRegistry : RegistryState := ⟨none, none, none, 0, none, fun _ => none⟩

/-- States reachable through the public operations from a fresh instance. -/
inductive Reachable : RegistryState → Prop where
  | init : Reachable initRegistry
  | step (s : RegistryState) (op : RegistryOp) : Reachable s → Reachable (applyOp s op)

/-- One rate-limit request as seen by the Durable Object: its key and
query parameters. -/
structure RateCall where
  key : String
  windowMs : Int
  maxRequests : Nat
  now : Int

/-- One rate-limit call against the shared storage map: read the window at
`ratelimit:<key>`, run the check, write back only that key's entry. -/
def rlStorageOp (store : String → Option RateWindow) (c : RateCall) :
    RateResult × (String → Option RateWindow) :=
  let r := checkAndIncrementRate (store (rlKey c.key)) c.now c.windowMs c.maxRequests
  (r.1, fun k => if k = rlKey c.key then r.2 else store k)

/-- Run a sequence of rate-limit calls against the shared storage map,
tagging each response with the key of the call that produced it. -/
def runRateCalls (store : String → Option RateWindow) :
    List RateCall → List (String × RateResult) × (String → Option RateWindow)
  | [] => ([], store)
  | c :: cs =>
    let r := rlStorageOp store c
    let rest := runRateCalls r.2 cs
    ((c.key, r.1) :: rest.1, rest.2)

/-- Helper: a call within the current window that does not exceed the
maximum is allowed and persists the incremented count. -/
theorem checkAndIncrementRate_allowed (t0 t windowMs : Int) (c maxRequests : Nat)
    (hwin : t - t0 ≤ windowMs) (hc : c + 1 ≤ maxRequests) :
    checkAndIncrementRate (some ⟨t0, c⟩) t windowMs maxRequests =
      (⟨true, none⟩, some ⟨t0, c + 1⟩) := by
  simp only [checkAndIncrementRate]
  rw [if_neg (by omega : ¬ t - t0 > windowMs)]
  rw [if_neg (by omega : ¬ maxRequests < c + 1)]

/-- Helper: a call within the current window whose count already reached the
maximum is rejected with the ceiling retry-after and does not change the
stored window. -/
theorem checkAndIncrementRate_reject (t0 t windowMs : Int) (c maxRequests : Nat)
    (hwin : t - t0 ≤ windowMs) (hc : maxRequests ≤ c) :
    checkAndIncrementRate (some ⟨t0, c⟩) t windowMs maxRequests =
      (⟨false, some (ceilDiv (t0 + windowMs - t) 1000)⟩, some ⟨t0, c⟩) := by
  simp only [checkAndIncrementRate]
  rw [if_neg (by omega : ¬ t - t0 > windowMs)]
  rw [if_pos (by omega : maxRequests < c + 1)]

/-- Helper: the first call on an absent or expired window resets it; the
reset call is allowed exactly when the maximum is at least one. -/
theorem checkAndIncrementRate_fresh (stored : Option RateWindow)
    (t0 windowMs : Int) (maxRequests : Nat)
    (hfresh : stored = none ∨ ∃ w, stored = some w ∧ t0 - w.start > windowMs) :
    checkAndIncrementRate stored t0 windowMs maxRequests =
      if maxRequests = 0 then
        (⟨false, some (ceilDiv (t0 + windowMs - t0) 1000)⟩, stored)
      else (⟨true, none⟩, some ⟨t0, 1⟩) := by
  rcases hfresh with h | ⟨w, hw, hexp⟩
  · subst h
    simp only [checkAndIncrementRate]
    by_cases hm : maxRequests = 0
    · rw [if_pos (by omega : maxRequests < 0 + 1), if_pos hm]
    · rw [if_neg (by omega : ¬ maxRequests < 0 + 1), if_neg hm]
  · subst hw
    simp only [checkAndIncrementRate]
    rw [if_pos hexp]
    by_cases hm : maxRequests = 0
    · rw [if_pos (by omega : maxRequests < 0 + 1), if_pos hm]
    · rw [if_neg (by omega : ¬ maxRequests < 0 + 1), if_neg hm]

/-- Helper: a run over calls that stay inside the window and never exceed
the maximum answers allowed throughout and counts them all. -/
theorem runRate_allowed (windowMs : Int) (maxRequests : Nat) (t0 : Int)
    (ts : List Int) (c : Nat) (hin : ∀ u ∈ ts, u - t0 ≤ windowMs)
    (hc : c + ts.length ≤ maxRequests) :
    runRate (some ⟨t0, c⟩) ts windowMs maxRequests =
      (ts.map (fun _ => ⟨true, none⟩), some ⟨t0, c + ts.length⟩) := by
  induction ts generalizing c with
  | nil => simp [runRate]
  | cons t ts ih =>
    have ht : t - t0 ≤ windowMs := hin t (List.mem_cons_self t ts)
    have hstep := checkAndIncrementRate_allowed t0 t windowMs c maxRequests ht
      (by simp at hc; omega)
    have hrest := ih (c + 1)
      (fun u hu => hin u (List.mem_cons_of_mem t hu))
      (by simp at hc ⊢; omega)
    have hcnt : c + 1 + ts.length = c + (ts.length + 1) := by omega
    simp only [runRate, hstep, hrest, List.map_cons, List.length_cons, hcnt]

/-- Helper: running an appended list of call times chains the two runs. -/
theorem runRate_append (stored : Option RateWindow) (l1 l2 : List Int)
    (windowMs : Int) (maxRequests : Nat) :
    runRate stored (l1 ++ l2) windowMs maxRequests =
      ((runRate stored l1 windowMs maxRequests).1 ++
         (runRate (runRate stored l1 windowMs maxRequests).2 l2 windowMs maxRequests).1,
       (runRate (runRate stored l1 windowMs maxRequests).2 l2 windowMs maxRequests).2) := by
  induction l1 generalizing stored with
  | nil => simp [runRate]
  | cons t l1 ih =>
    simp only [List.cons_append, runRate, List.append_eq, ih]

/-- C1: starting from a fresh (absent or expired) window, any sequence of at
most `max` calls within one window is fully allowed, and when the window
already holds `max` calls the next call inside it is rejected with
`retryAfterSeconds = ceil((windowStart + windowMs - now) / 1000) ≥ 0`; the
call that pushes the count over `max` is itself rejected. -/
theorem rateLimit_window_spec (windowMs : Int) (maxRequests : Nat) (t0 : Int)
    (ts : List Int) (stored0 : Option RateWindow)
    (hw : 0 ≤ windowMs)
    (hfresh : stored0 = none ∨ ∃ w, stored0 = some w ∧ t0 - w.start > windowMs)
    (hin : ∀ u ∈ ts, u - t0 ≤ windowMs) :
    (ts.length + 1 ≤ maxRequests →
      (runRate stored0 (t0 :: ts) windowMs maxRequests).1 =
        (t0 :: ts).map (fun _ => ⟨true, none⟩))
    ∧ (ts.length = maxRequests →
        (runRate stored0 (t0 :: ts) windowMs maxRequests).1 =
          (t0 :: ts).dropLast.map (fun _ => (⟨true, none⟩ : RateResult)) ++
            [⟨false, some (ceilDiv (t0 + windowMs - ts.getLastD t0) 1000)⟩]
        ∧ 0 ≤ ceilDiv (t0 + windowMs - ts.getLastD t0) 1000) := by
  have hfirst := checkAndIncrementRate_fresh stored0 t0 windowMs maxRequests hfresh
  constructor
  · intro hlen
    have hf1 := hfirst
    rw [if_neg (by omega : ¬ maxRequests = 0)] at hf1
    have hrest := runRate_allowed windowMs maxRequests t0 ts 1 hin (by omega)
    simp only [runRate, hf1, hrest, List.map_cons]
  · intro hlen
    rcases Nat.eq_zero_or_pos maxRequests with hm | hm
    · have hts : ts = [] := List.length_eq_zero.mp (by omega)
      subst hts
      have hf1 := hfirst
      rw [if_pos hm] at hf1
      refine ⟨?_, ?_⟩
      · simp only [runRate, hf1, List.dropLast_single, List.map_nil,
          List.getLastD_nil, List.nil_append]
      · simp only [List.getLastD_nil, ceilDiv]
        omega
    · rcases List.eq_nil_or_concat ts with hts | ⟨L, a, hts⟩
      · subst hts
        simp at hlen
        omega
      · subst hts
        rw [List.concat_eq_append] at hlen hin ⊢
        have hf1 := hfirst
        rw [if_neg (by omega : ¬ maxRequests = 0)] at hf1
        have ha : a - t0 ≤ windowMs := hin a (by simp)
        have hL : ∀ u ∈ L, u - t0 ≤ windowMs := fun u hu => hin u (by simp [hu])
        have hlenL : L.length + 1 = maxRequests := by
          simpa using hlen
        have hLrun := runRate_allowed windowMs maxRequests t0 L 1 hL (by omega)
        have hreject := checkAndIncrementRate_reject t0 a windowMs
          (1 + L.length) maxRequests ha (by omega)
        have happ := runRate_append (some ⟨t0, 1⟩) L [a] windowMs maxRequests
        refine ⟨?_, ?_⟩
        · simp only [runRate, hf1, happ, hLrun, hreject, List.map_cons,
            List.map_append, List.getLastD_concat]
          rw [show t0 :: (L ++ [a]) = (t0 :: L) ++ [a] from rfl,
            List.dropLast_concat, List.map_cons]
          rfl
        · rw [List.getLastD_concat]
          simp only [ceilDiv]
          omega

/-- Witness for C1 at windowMs 60000, max 2, calls at 1000, 2000 and 3000
from empty storage: the first two calls pass, the third is rejected with a
58 second retry-after. -/
theorem rateLimit_window_spec_witness :
    (runRate none [1000, 2000, 3000] 60000 2).1 =
      [⟨true, none⟩, ⟨true, none⟩, ⟨false, some 58⟩] := by
  have h := (rateLimit_window_spec 60000 2 1000 [2000, 3000] none (by decide)
    (Or.inl rfl) (by decide)).2 rfl
  exact h.1.trans (by decide)

/-- Helper: an optional value bne on `some` reduces to bne of the contents. -/
theorem some_bne_some {α : Type} [BEq α] [LawfulBEq α] (a b : α) :
    ((some a : Option α) != some b) = (a != b) := by
  rw [Bool.eq_iff_iff]
  simp [bne_iff_ne]

/-- Helper: requiring nonzero on top of positive is redundant. -/
theorem bne_zero_and_pos (l : Int) :
    ((l != 0) && decide (0 < l)) = decide (0 < l) := by
  by_cases h : 0 < l
  · have h2 : l ≠ 0 := by omega
    simp [h, h2]
  · simp [h]

/-- Helper: the source health monitor computes exactly the six ordered
rules with JS-truthy presence. -/
theorem health_eq_healthSpec (track : Option TrackRecord)
    (pullStats : Option PullStats) (now : Int) :
    health track pullStats now = healthSpec track pullStats now := by
  cases track with
  | none => rfl
  | some t =>
    cases pullStats with
    | none =>
      simp [health, healthSpec, psSessionId, psLastSuccess, psRecentFailures]
    | some ps =>
      cases hsid : ps.sessionId with
      | none =>
        simp [health, healthSpec, psSessionId, psLastSuccess, psRecentFailures,
          truthyStr, hsid, bne_zero_and_pos]
      | some sid =>
        simp only [health, healthSpec, psSessionId, psLastSuccess, psRecentFailures,
          truthyStr, hsid, Option.elim, some_bne_some, bne_zero_and_pos,
          Bool.and_assoc]

/-- C2 counterexample: at a fresh track with pullStats
{ lastSuccess: 0, recentFailures: 0, sessionId: null } and now = 3700000,
the claim's rule 5 (lastSuccess present and older than one hour) demands
unhealthy("no-recent-viewers"), but the source's truthiness check
`pullStats.lastSuccess && pullStats.lastSuccess > 0` treats the zero
lastSuccess as absent and falls through to the healthy verdict. -/
theorem health_rule5_zero_lastSuccess_counterexample :
    health (some ⟨"s1", "cam", 3700000⟩) (some ⟨0, 0, none⟩) 3700000 =
      ⟨true, none⟩
    ∧ health (some ⟨"s1", "cam", 3700000⟩) (some ⟨0, 0, none⟩) 3700000 ≠
      ⟨false, some "no-recent-viewers"⟩ := by
  exact ⟨by decide, by decide⟩

/-- C2 (amended): health applies the six ordered rules with first match
winning, where a pullStats field counts as present only when JS-truthy
(sessionId non-null and non-empty; lastSuccess nonzero for rule 4 and
positive for rule 5); in particular a stale track reports stale-heartbeat
whatever the pull stats say, so a stale track with mismatched
pullStats.sessionId reports stale-heartbeat, not new-session. -/
theorem health_ordered_rules (track : Option TrackRecord)
    (pullStats : Option PullStats) (now : Int) :
    health track pullStats now = healthSpec track pullStats now
    ∧ (∀ t : TrackRecord, track = some t → now - t.timestamp > 60000 →
        health track pullStats now = ⟨false, some "stale-heartbeat"⟩) := by
  refine ⟨health_eq_healthSpec track pullStats now, ?_⟩
  intro t ht hstale
  subst ht
  simp only [health]
  rw [if_pos hstale]

/-- Witness for C2 at a track 61001 ms old with mismatched pull-stats
session id: the verdict is stale-heartbeat. -/
theorem health_ordered_rules_witness :
    health (some ⟨"s1", "cam", 0⟩) (some ⟨5, 0, some "old"⟩) 61001 =
      ⟨false, some "stale-heartbeat"⟩ :=
  (health_ordered_rules (some ⟨"s1", "cam", 0⟩) (some ⟨5, 0, some "old"⟩)
    61001).2 ⟨"s1", "cam", 0⟩ rfl (by decide)

/-- C3 counterexample: a single heartbeat cycle whose registration succeeds
but whose health verdict is unhealthy triggers a restart at once, with the
consecutive-failure counter still at zero — the code neither increments the
counter for a non-healthy verdict nor waits for three failures. -/
theorem heartbeat_unhealthy_immediate_restart :
    sendHeartbeat ⟨0, false⟩ ⟨false, .ok true, .ok true, false⟩ =
      (⟨0, true⟩, true) := by decide

/-- C3 (amended): in a heartbeat cycle that is not skipped and whose WebRTC
state is sound, a thrown registration or health request or a non-ok
registration response increments the consecutive-failure counter, with the
restart triggered exactly upon the counter reaching 3; an ok-but-unhealthy
health verdict triggers the restart immediately without counting; and a
successful cycle (healthy verdict, or a non-ok health response, which the
code skips) resets the counter to 0 without restarting. -/
theorem heartbeat_failure_counter (s : PubState) (inp : HBInput)
    (hr : s.isRestarting = false) (hc : inp.connBad = false) :
    (hbFailCase inp → s.consecutiveHeartbeatFailures + 1 < 3 →
      sendHeartbeat s inp = (⟨s.consecutiveHeartbeatFailures + 1, false⟩, false))
    ∧ (hbFailCase inp → 3 ≤ s.consecutiveHeartbeatFailures + 1 →
        sendHeartbeat s inp = (⟨0, true⟩, true))
    ∧ (inp.reg = .ok true → inp.healthReq = .ok true →
        inp.healthHealthy = false → sendHeartbeat s inp = (⟨0, true⟩, true))
    ∧ (inp.reg = .ok true →
        (inp.healthReq = .ok false ∨
          (inp.healthReq = .ok true ∧ inp.healthHealthy = true)) →
        sendHeartbeat s inp = (⟨0, false⟩, false)) := by
  refine ⟨?_, ?_, ?_, ?_⟩
  · intro hfail hlt
    rcases hfail with h | h | ⟨h1, h2⟩
    · simp [sendHeartbeat, hbCatch, triggerRestart, hr, hc, h]
      omega
    · simp [sendHeartbeat, hbCatch, triggerRestart, hr, hc, h]
      omega
    · simp [sendHeartbeat, hbCatch, triggerRestart, hr, hc, h1, h2]
      omega
  · intro hfail hge
    rcases hfail with h | h | ⟨h1, h2⟩
    · simp [sendHeartbeat, hbCatch, triggerRestart, hr, hc, h]
      omega
    · simp [sendHeartbeat, hbCatch, triggerRestart, hr, hc, h]
      omega
    · simp [sendHeartbeat, hbCatch, triggerRestart, hr, hc, h1, h2]
      omega
  · intro h1 h2 h3
    simp [sendHeartbeat, triggerRestart, hr, hc, h1, h2, h3]
  · intro h1 hsucc
    rcases hsucc with h | ⟨h2, h3⟩
    · simp [sendHeartbeat, hr, hc, h1, h]
    · simp [sendHeartbeat, hr, hc, h1, h2, h3]

/-- Witness for C3 at a counter of 2 and a thrown registration request: the
third consecutive failure triggers the restart. -/
theorem heartbeat_failure_counter_witness :
    sendHeartbeat ⟨2, false⟩ ⟨false, .thrown, .ok true, true⟩ =
      (⟨0, true⟩, true) :=
  (heartbeat_failure_counter ⟨2, false⟩ ⟨false, .thrown, .ok true, true⟩
    rfl rfl).2.1 (Or.inl rfl) (by decide)

/-- C4: the color downlink payload is exactly
[clamp r, clamp b, clamp g, 255, 0] — the device's Red, Blue, Green byte
order — with each clamped component confined to [0, 255], and the inputs
(300, -10, 128) encode as the bytes [255, 128, 0, 255, 0]. -/
theorem colorDownlinkPayload_spec :
    (∀ red green blue : Int,
      colorDownlinkPayload red green blue =
        [clamp red, clamp blue, clamp green, 255, 0]
      ∧ 0 ≤ clamp red ∧ clamp red ≤ 255
      ∧ 0 ≤ clamp green ∧ clamp green ≤ 255
      ∧ 0 ≤ clamp blue ∧ clamp blue ≤ 255)
    ∧ colorDownlinkPayload 300 (-10) 128 = [255, 128, 0, 255, 0] := by
  refine ⟨fun red green blue => ⟨rfl, ?_, ?_, ?_, ?_, ?_, ?_⟩, by decide⟩
    <;> simp only [clamp] <;> omega

/-- C5: running the restart subsystem through the trace — trigger, start()
throws, the 30s backoff elapses (which clears the guard, spawns the retry
and then lets the outer finally clear the guard again while the retry
sleeps), one more trigger — leaves two restart executions in flight, so the
guard does not make overlapping restarts impossible; a trigger arriving
during the 30s backoff itself is dropped, and the flag is still set then. -/
theorem restart_guard_overlap :
    activeRestarts (runRestart ⟨false, []⟩
      [.trigger, .startFail 0, .backoffDone 0, .trigger]) = 2
    ∧ activeRestarts (runRestart ⟨false, []⟩ [.trigger, .startFail 0, .trigger]) = 1
    ∧ (runRestart ⟨false, []⟩ [.trigger, .startFail 0]).isRestarting = true := by
  exact ⟨by decide, by decide, by decide⟩

/-- C6: evaluating the auth gates of the router at the claim's failing
input: with no publisher secret configured the POST /led/command gate lets
the request proceed (fail-open), exactly like POST /track/register, contrary
to the documented fail-closed behavior; with a secret configured both gates
reject a missing or wrong X-Publisher-Secret header and accept the right
one. -/
theorem ledCommand_auth_fail_open :
    ledCommandAllowed none none = true
    ∧ trackWriteAllowed none none = true
    ∧ ledCommandAllowed (some "secret") none = false
    ∧ ledCommandAllowed (some "secret") (some "wrong") = false
    ∧ trackWriteAllowed (some "secret") (some "wrong") = false
    ∧ ledCommandAllowed (some "secret") (some "secret") = true
    ∧ trackWriteAllowed (some "secret") (some "secret") = true := by
  exact ⟨by decide, by decide, by decide, by decide, by decide, by decide, by decide⟩

/-- C7: decodeTelemetry succeeds exactly on 24-byte frames, and an uplink
webhook event whose data fails decoding yields the structured success
response with deviceState null and leaves the stored state unchanged. -/
theorem decodeTelemetry_length_spec :
    (∀ (bytes : List Nat) (now : Int),
      (decodeTelemetry bytes now).isOk = true ↔ bytes.length = 24)
    ∧ (∀ (stored : Option BusylightState) (bytes : List Nat) (now : Int),
        bytes.length ≠ 24 →
        handleUplink stored (some bytes) now = (⟨true, none⟩, stored)) := by
  constructor
  · intro bytes now
    by_cases h : bytes.length = 24
    · simp [decodeTelemetry, h, Except.isOk, Except.toBool]
    · simp [decodeTelemetry, h, Except.isOk, Except.toBool]
  · intro stored bytes now h
    simp [handleUplink, decodeTelemetry, h]

/-- Witness for C7 at a three-byte frame: the webhook leaves the empty
stored state alone and answers with deviceState null. -/
theorem decodeTelemetry_length_spec_witness :
    handleUplink none (some [1, 2, 3]) 0 = (⟨true, none⟩, none) :=
  decodeTelemetry_length_spec.2 none [1, 2, 3] 0 (by decide)

/-- C8: GET /current returns the stored record while it is at most 60s old,
the no-track result when none is stored, and the stale result when the
record is over 60s old; registering stamps timestamp = now, so an immediate
read returns the record and a read 61s later reports it stale. -/
theorem getCurrentTrack_spec :
    (∀ now : Int, getCurrentTrack none now = .notFoundNoTrack)
    ∧ (∀ (t : TrackRecord) (now : Int), now - t.timestamp ≤ 60000 →
        getCurrentTrack (some t) now = .found t)
    ∧ (∀ (t : TrackRecord) (now : Int), now - t.timestamp > 60000 →
        getCurrentTrack (some t) now = .notFoundStale)
    ∧ (∀ now : Int,
        registerTrack "s1" "cam" now = .ok ⟨"s1", "cam", now⟩
        ∧ getCurrentTrack (some ⟨"s1", "cam", now⟩) now = .found ⟨"s1", "cam", now⟩
        ∧ getCurrentTrack (some ⟨"s1", "cam", now⟩) (now + 61000) = .notFoundStale) := by
  refine ⟨fun now => rfl, ?_, ?_, ?_⟩
  · intro t now hle
    simp only [getCurrentTrack]
    rw [if_neg (by omega : ¬ now - t.timestamp > 60000)]
  · intro t now hgt
    simp only [getCurrentTrack]
    rw [if_pos hgt]
  · intro now
    refine ⟨?_, ?_, ?_⟩
    · simp only [registerTrack]
      rw [if_neg (by decide : ¬ ((("s1" == "") || ("cam" == "")) = true))]
    · simp only [getCurrentTrack]
      rw [if_neg (by omega : ¬ now - now > 60000)]
    · simp only [getCurrentTrack]
      rw [if_pos (by omega : now + 61000 - now > 60000)]

/-- Witness for C8 at a record registered at time 100: the immediate read
finds it and the read at 61100 reports it stale. -/
theorem getCurrentTrack_spec_witness :
    getCurrentTrack (some ⟨"s1", "cam", 100⟩) 100 = .found ⟨"s1", "cam", 100⟩
    ∧ getCurrentTrack (some ⟨"s1", "cam", 100⟩) 61100 = .notFoundStale :=
  ⟨(getCurrentTrack_spec.2.2.2 100).2.1, (getCurrentTrack_spec.2.2.1
    ⟨"s1", "cam", 100⟩ 61100 (by decide))⟩

/-- Helper: every reachable state's pull stats, when present, carry a zero
recent-failure count — POST /pull-success is the only writer of the
pullStats key and always stores recentFailures = 0. -/
theorem reachable_recentFailures_zero (s : RegistryState) (h : Reachable s) :
    ∀ ps, s.pullStats = some ps → ps.recentFailures = 0 := by
  induction h with
  | init =>
    intro ps hps
    simp [initRegistry] at hps
  | step s' op _ ih =>
    intro ps hps
    cases op with
    | ratelimit key windowMs maxRequests now =>
      exact ih ps hps
    | register sessionId trackName now =>
      simp only [applyOp] at hps
      split at hps
      · exact ih ps hps
      · exact ih ps hps
    | heartbeat now =>
      simp only [applyOp] at hps
      split at hps
      · exact ih ps hps
      · exact ih ps hps
    | unregister =>
      exact ih ps hps
    | putBusylightState st =>
      exact ih ps hps
    | incrementDownlinkCounter =>
      exact ih ps hps
    | setNeedsConfig data =>
      exact ih ps hps
    | pullSuccess now =>
      simp only [applyOp] at hps
      rw [Option.some_inj] at hps
      rw [← hps]

/-- Helper: a pull-stats record whose recent-failure count is zero can never
make the health monitor answer pull-failures, whatever the track and the
clock. -/
theorem health_no_pull_failures (track : Option TrackRecord)
    (pullStats : Option PullStats) (now : Int)
    (hrf : ∀ ps, pullStats = some ps → ps.recentFailures = 0) :
    (health track pullStats now).reason ≠ some "pull-failures" := by
  cases track with
  | none => simp [health]
  | some t =>
    cases pullStats with
    | none =>
      simp only [health]
      split
      · simp
      · simp
    | some ps =>
      have h0 : ps.recentFailures = 0 := hrf ps rfl
      simp only [health, h0]
      split
      · simp
      · split
        · simp
        · split
          · simp_all
          · split
            · simp
            · simp

/-- C9: in every state reachable through the public operations the stored
pull stats carry recentFailures = 0 (POST /pull-success is the only writer
of pullStats), and hence GET /health never answers with the
unhealthy("pull-failures") verdict. -/
theorem reachable_no_pull_failures (s : RegistryState) (h : Reachable s) :
    (∀ ps, s.pullStats = some ps → ps.recentFailures = 0)
    ∧ ∀ now, (health s.currentTrack s.pullStats now).reason ≠
        some "pull-failures" := by
  refine ⟨reachable_recentFailures_zero s h, fun now => ?_⟩
  exact health_no_pull_failures s.currentTrack s.pullStats now
    (reachable_recentFailures_zero s h)

/-- Witness for C9 at a state reached by registering a track and recording
one pull success: the stats hold recentFailures = 0 and the verdict is not
pull-failures. -/
theorem reachable_no_pull_failures_witness :
    (health (applyOp (applyOp initRegistry (.register "s1" "cam" 0))
        (.pullSuccess 5)).currentTrack
      (applyOp (applyOp initRegistry (.register "s1" "cam" 0))
        (.pullSuccess 5)).pullStats 10).reason ≠ some "pull-failures" :=
  (reachable_no_pull_failures _
    (Reachable.step _ _ (Reachable.step _ _ Reachable.init))).2 10

/-- Helper: the per-key storage keys are injective — distinct request keys
use distinct `ratelimit:` entries. -/
theorem rlKey_inj (a b : String) (h : rlKey a = rlKey b) : a = b := by
  have h2 := congrArg String.data h
  simp [rlKey, String.data_append] at h2
  exact String.ext h2

/-- Helper: projection of a mixed run of rate-limit calls onto one key:
when two stores agree on the key's entry, the key's tagged responses in the
mixed run and its entry afterwards equal those of running only the key's
own calls. -/
theorem runRateCalls_proj (calls : List RateCall)
    (s1 s2 : String → Option RateWindow) (k : String)
    (h : s1 (rlKey k) = s2 (rlKey k)) :
    ((runRateCalls s1 calls).1.filter (fun p => p.1 == k)) =
      (runRateCalls s2 (calls.filter (fun c => c.key == k))).1
    ∧ (runRateCalls s1 calls).2 (rlKey k) =
      (runRateCalls s2 (calls.filter (fun c => c.key == k))).2 (rlKey k) := by
  induction calls generalizing s1 s2 with
  | nil => exact ⟨by simp [runRateCalls], by simpa [runRateCalls] using h⟩
  | cons c cs ih =>
    by_cases hk : c.key = k
    · have hres : (rlStorageOp s1 c).1 = (rlStorageOp s2 c).1 := by
        simp [rlStorageOp, hk, h]
      have hst : (rlStorageOp s1 c).2 (rlKey k) = (rlStorageOp s2 c).2 (rlKey k) := by
        simp [rlStorageOp, hk, h]
      have ihh := ih (rlStorageOp s1 c).2 (rlStorageOp s2 c).2 hst
      constructor
      · simp [runRateCalls, hk, List.filter, ihh.1, hres]
      · simp [runRateCalls, hk, List.filter, ihh.2]
    · have hkb : (c.key == k) = false := by
        simp [hk]
      have hne : rlKey k ≠ rlKey c.key := fun he => hk (rlKey_inj c.key k he.symm)
      have hpres : (rlStorageOp s1 c).2 (rlKey k) = s2 (rlKey k) := by
        simp only [rlStorageOp]
        rw [if_neg hne]
        exact h
      have ihh := ih (rlStorageOp s1 c).2 s2 hpres
      constructor
      · simp [runRateCalls, hkb, List.filter, ihh.1]
      · simp [runRateCalls, hkb, List.filter, ihh.2]

/-- C10: rate limiting is noninterfering across keys: in any mixed sequence
of rate-limit calls, one key's responses and its stored `ratelimit:<key>`
window equal those of running that key's calls alone (so interleaved calls
for other keys change nothing for it), and a single call for a different
key leaves the key's stored window untouched. -/
theorem rate_noninterference (store : String → Option RateWindow)
    (calls : List RateCall) (k : String) :
    ((runRateCalls store calls).1.filter (fun p => p.1 == k) =
      (runRateCalls store (calls.filter (fun c => c.key == k))).1)
    ∧ ((runRateCalls store calls).2 (rlKey k) =
      (runRateCalls store (calls.filter (fun c => c.key == k))).2 (rlKey k))
    ∧ ∀ c : RateCall, c.key ≠ k →
        (rlStorageOp store c).2 (rlKey k) = store (rlKey k) := by
  refine ⟨(runRateCalls_proj calls store store k rfl).1,
    (runRateCalls_proj calls store store k rfl).2, ?_⟩
  intro c hc
  simp only [rlStorageOp]
  rw [if_neg (fun he => hc (rlKey_inj k c.key he).symm)]

/-- Witness for C10: a call for key "a" on empty storage leaves the entry
of key "b" absent. -/
theorem rate_noninterference_witness :
    (rlStorageOp (fun _ => none) ⟨"a", 60000, 10, 0⟩).2 (rlKey "b") = none :=
  (rate_noninterference (fun _ => none) [] "b").2.2 ⟨"a", 60000, 10, 0⟩ (by decide)
